import Mathlib

/-!
Shallow embedding of the SushiBurrito backend authentication/session core and
realtime notification layer, with theorems checking the natural-language
specification against it.

Embedded source files:
* the rotating-session auth controller (login / refreshToken / logout) found in
  src/backend/src/controllers/mesa.controller.js (section labelled
  src/controllers/auth.controller.js, lines 496-732);
* the mounted stateless auth controller src/backend/src/controllers/auth.controller.js
  (login with the must_change_password gate, refreshToken without a store);
* src/backend/src/utils/notificationHistory.js (bounded history ring);
* src/backend/src/socket/events.js (obtener_historial handler);
* the socket middleware (assignUserToRooms) in src/unnamed/part_000;
* the Usuario model (must_change_password column) in src/unnamed/part_001.

Machine-level conventions: timestamps are naturals (milliseconds since epoch);
JWTs are modelled as records carrying their payload, signing secret and absolute
expiry; the SHA-256 digest of a serialized token is modelled as an injective
numeric encoding of the token record; the session table is a list of rows.
-/

namespace SushiBurrito

/-- A signed JWT, modelled by its payload (user id and, for refresh tokens of the
rotating controller, a session id), the secret it was signed with, and its
absolute expiry instant. -/
structure Token where
  payload_id : Nat
  payload_session_id : Option Nat
  secret : Nat
  exp : Nat
deriving DecidableEq, Repr

/-- Claims returned by a successful jwt.verify: the decoded payload. -/
structure JwtClaims where
  id : Nat
  sessionId : Option Nat
deriving DecidableEq, Repr

/-- jwt.verify(token, secret): succeeds and yields the payload exactly when the
token was signed with that secret and is not yet expired (jsonwebtoken rejects
once the current time reaches exp). -/
def verifyJwt (t : Token) (secret : Nat) (now : Nat) : Option JwtClaims :=
  if t.secret = secret ∧ now < t.exp then some ⟨t.payload_id, t.payload_session_id⟩ else none

/-- Injective numeric encoding of an optional session id, used inside the

hash encoding. -/
def encodeOptNat : Option Nat → Nat
  | none => 0
  | some n => n + 1

/-- hashToken (auth controller): SHA-256 hex digest of the serialized token.
Modelled as an injective numeric digest of the token record (an idealized
collision-free hash). -/
def hashToken (t : Token) : Nat :=
  Nat.pair t.payload_id (Nat.pair (encodeOptNat t.payload_session_id) (Nat.pair t.secret t.exp))

/-- One row of the refresh_token_sessions table
(src/backend/src/models/refresh_token_session.model.js). -/
structure SessionRow where
  session_id : Nat
  usuario_id : Nat
  token_hash : Nat
  replaced_by_token_hash : Option Nat
  revoked_at : Option Nat
  expires_at : Nat
  user_agent : Option String
  ip_address : Option String
deriving DecidableEq, Repr

/-- The refresh_token_sessions table. -/
abbrev Store := List SessionRow

/-- Process-wide configuration of the rotating auth controller. -/
structure Env where
  accessTokenSecret : Nat
  refreshTokenSecret : Nat
  accessTokenExpiresIn : Nat
  refreshTokenExpiresIn : Nat
  refreshTokenMaxAgeMs : Nat
deriving DecidableEq, Repr

/-- createAccessToken: jwt.sign with the id claim only, under the access secret. -/
def createAccessToken (env : Env) (userId : Nat) (now : Nat) : Token :=
  { payload_id := userId
    payload_session_id := none
    secret := env.accessTokenSecret
    exp := now + env.accessTokenExpiresIn }

/-- createRefreshToken: jwt.sign with id and sessionId claims, under the refresh
secret. -/
def createRefreshToken (env : Env) (userId sessionId : Nat) (now : Nat) : Token :=
  { payload_id := userId
    payload_session_id := some sessionId
    secret := env.refreshTokenSecret
    exp := now + env.refreshTokenExpiresIn }

/-- What the handler did to the refresh cookie: left it alone, set it to a new
token (setRefreshCookie), or cleared it (clearRefreshCookie). -/
inductive CookieEffect where
  | untouched
  | set (t : Token)
  | cleared
deriving DecidableEq, Repr

/-- The parts of an Express request the session handlers read: the refresh
cookie, the body fallback, and provenance headers. -/
structure AuthRequest where
  cookieToken : Option Token
  bodyToken : Option Token
  userAgent : Option String
  ipAddress : Option String
deriving DecidableEq, Repr

/-- req.cookies?.[REFRESH_COOKIE_NAME] || req.body?.refreshToken. -/
def presentedToken (req : AuthRequest) : Option Token :=
  match req.cookieToken with
  | some t => some t
  | none => req.bodyToken

/-- The WHERE clause of the active-session lookup in refreshToken: session_id,
usuario_id and token_hash match the presented token exactly, revoked_at is null,
and expires_at is strictly in the future (Op.gt). -/
def matchesActiveSession (sessionId : Option Nat) (userId tokenHash now : Nat)
    (r : SessionRow) : Bool :=
  some r.session_id = sessionId && r.usuario_id = userId && r.token_hash = tokenHash &&
    r.revoked_at = none && decide (now < r.expires_at)

/-- RefreshTokenSession.update({revoked_at: now}, {where: {usuario_id, revoked_at: null}}):
the family-wide revocation run on reuse detection. -/
def revokeAllActive (userId now : Nat) (st : Store) : Store :=
  st.map fun r =>
    if r.usuario_id = userId && r.revoked_at = none then { r with revoked_at := some now } else r

/-- Update the first row satisfying p (the row instance returned by findOne). -/
def updateFirst (p : SessionRow → Bool) (f : SessionRow → SessionRow) : Store → Store
  | [] => []
  | r :: rs => if p r then f r :: rs else r :: updateFirst p f rs

/-- Observable outcome of the refreshToken handler: HTTP status, resulting
session table, cookie effect, and the access token in the body if any. -/
structure RefreshResult where
  status : Nat
  store : Store
  cookie : CookieEffect
  accessToken : Option Token
deriving DecidableEq, Repr

/-- The refreshToken handler of the rotating auth controller
(mesa.controller.js concatenation, lines 630-697). The fresh session id
produced by crypto.randomUUID() is passed in as newSessionId. -/
def refreshTokenHandler (env : Env) (req : AuthRequest) (st : Store) (now newSessionId : Nat) :
    RefreshResult :=
  match presentedToken req with
  | none => ⟨401, st, CookieEffect.untouched, none⟩
  | some tok =>
    match verifyJwt tok env.refreshTokenSecret now with
    | none => ⟨403, st, CookieEffect.cleared, none⟩
    | some decoded =>
      let tokenHash := hashToken tok
      match st.find? (matchesActiveSession decoded.sessionId decoded.id tokenHash now) with
      | none =>
        ⟨403, revokeAllActive decoded.id now st, CookieEffect.cleared, none⟩
      | some _ =>
        let newRefreshTok := createRefreshToken env decoded.id newSessionId now
        let newHash := hashToken newRefreshTok
        let rotated := updateFirst
          (matchesActiveSession decoded.sessionId decoded.id tokenHash now)
          (fun r => { r with revoked_at := some now, replaced_by_token_hash := some newHash }) st
        let newRow : SessionRow :=
          { session_id := newSessionId
            usuario_id := decoded.id
            token_hash := newHash
            replaced_by_token_hash := none
            revoked_at := none
            expires_at := now + env.refreshTokenMaxAgeMs
            user_agent := req.userAgent
            ip_address := req.ipAddress }
        ⟨200, rotated ++ [newRow], CookieEffect.set newRefreshTok,
          some (createAccessToken env decoded.id now)⟩

/-- Observable outcome of the logout handler. -/
structure LogoutResult where
  status : Nat
  store : Store
  cookie : CookieEffect
  body : String
deriving DecidableEq, Repr

/-- The logout handler of the rotating auth controller (lines 706-732): best
effort verify, revoke the matching active rows, always clear the cookie and
return 200. -/
def logoutHandler (env : Env) (req : AuthRequest) (st : Store) (now : Nat) : LogoutResult :=
  match presentedToken req with
  | none => ⟨200, st, CookieEffect.cleared, "Sesión cerrada exitosamente."⟩
  | some tok =>
    match verifyJwt tok env.refreshTokenSecret now with
    | none => ⟨200, st, CookieEffect.cleared, "Sesión cerrada exitosamente."⟩
    | some decoded =>
      let st1 := st.map fun r =>
        if some r.session_id = decoded.sessionId && r.usuario_id = decoded.id &&
            r.revoked_at = none then
          { r with revoked_at := some now }
        else r
      ⟨200, st1, CookieEffect.cleared, "Sesión cerrada exitosamente."⟩

/-- The joined user record both login controllers read: primary key, display
name, the role name joined from Rol, the stored bcrypt hash, and the
must_change_password flag declared in the Usuario model (src/unnamed/part_001). -/
structure Usuario where
  usuario_id : Nat
  nombre : String
  nombre_rol : String
  contrasena : String
  must_change_password : Bool
deriving DecidableEq, Repr

/-- Idealized bcrypt digest of a password (injective, never reversed). -/
def bcryptHash (p : String) : String := "bcrypt$" ++ p

/-- bcrypt.compare(candidate, storedHash): true exactly when the stored hash is
the digest of the candidate. -/
def bcryptCompare (candidate storedHash : String) : Bool :=
  storedHash = bcryptHash candidate

/-- Response body of a login handler; absent JSON fields are none. -/
structure LoginBody where
  id : Option Nat
  nombre : Option String
  rol : Option String
  accessToken : Option Token
  refreshToken : Option Token
  mustChangePassword : Option Bool
  usuario_id : Option Nat
deriving DecidableEq, Repr

/-- Empty login body. -/
def LoginBody.empty : LoginBody := ⟨none, none, none, none, none, none, none⟩

/-- Observable outcome of a login handler: status, body, cookie effect, and the
session rows the handler created in the store. -/
structure LoginResult where
  status : Nat
  body : LoginBody
  cookie : CookieEffect
  createdSessions : List SessionRow
deriving DecidableEq, Repr

/-- The login handler the auth router actually mounts
(src/backend/src/controllers/auth.controller.js, lines 17-81): finds the user,
checks the password, short-circuits with mustChangePassword when the flag is
set, and otherwise issues stateless access and refresh JWTs with no session row
and no cookie. The refresh JWT carries only the id claim. -/
def loginMounted (env : Env) (usuarioLookup : Option Usuario) (contrasena : String)
    (now : Nat) : LoginResult :=
  match usuarioLookup with
  | none => ⟨404, LoginBody.empty, CookieEffect.untouched, []⟩
  | some usuario =>
    if ¬ bcryptCompare contrasena usuario.contrasena then
      ⟨401, LoginBody.empty, CookieEffect.untouched, []⟩
    else if usuario.must_change_password then
      ⟨200,
        { LoginBody.empty with
            mustChangePassword := some true
            usuario_id := some usuario.usuario_id },
        CookieEffect.untouched, []⟩
    else
      ⟨200,
        { LoginBody.empty with
            id := some usuario.usuario_id
            nombre := some usuario.nombre
            rol := some usuario.nombre_rol
            accessToken := some (createAccessToken env usuario.usuario_id now)
            refreshToken := some
              { payload_id := usuario.usuario_id
                payload_session_id := none
                secret := env.refreshTokenSecret
                exp := now + env.refreshTokenExpiresIn } },
        CookieEffect.untouched, []⟩

/-- The login handler of the rotating auth controller (mesa.controller.js
concatenation, lines 579-622): on valid credentials it mints a session id,
persists the hash of the new refresh token as an ACTIVE row, sets the refresh
cookie and returns the profile plus access token. -/
def loginRotating (env : Env) (usuarioLookup : Option Usuario) (contrasena : String)
    (req : AuthRequest) (now sessionId : Nat) : LoginResult :=
  match usuarioLookup with
  | none => ⟨404, LoginBody.empty, CookieEffect.untouched, []⟩
  | some usuario =>
    if ¬ bcryptCompare contrasena usuario.contrasena then
      ⟨401, LoginBody.empty, CookieEffect.untouched, []⟩
    else
      let refreshTok := createRefreshToken env usuario.usuario_id sessionId now
      let row : SessionRow :=
        { session_id := sessionId
          usuario_id := usuario.usuario_id
          token_hash := hashToken refreshTok
          replaced_by_token_hash := none
          revoked_at := none
          expires_at := now + env.refreshTokenMaxAgeMs
          user_agent := req.userAgent
          ip_address := req.ipAddress }
      ⟨200,
        { LoginBody.empty with
            id := some usuario.usuario_id
            nombre := some usuario.nombre
            rol := some usuario.nombre_rol
            accessToken := some (createAccessToken env usuario.usuario_id now) },
        CookieEffect.set refreshTok, [row]⟩

/-- A dashboard notification (src/backend/src/utils/notificationHistory.js):
type tag, human message, an abstract structured payload, an optional timestamp
and a priority tag. -/
structure Notification where
  type : String
  message : String
  data : Nat
  timestamp : Option Nat
  priority : String
deriving DecidableEq, Repr

/-- Capacity of the history ring (this.maxHistory). -/
def maxHistory : Nat := 6

/-- Timestamp assignment performed at the top of addNotification. -/
def stampNotification (now : Nat) (n : Notification) : Notification :=
  if n.timestamp = none then { n with timestamp := some now } else n

/-- NotificationHistory.addNotification: assign a timestamp if absent, unshift
onto the front, and slice back to maxHistory when the length exceeds it. -/
def addNotification (history : List Notification) (n : Notification) (now : Nat) :
    List Notification :=
  let h := stampNotification now n :: history
  if h.length > maxHistory then h.take maxHistory else h

/-- NotificationHistory.getRecentNotifications(limit): the first limit entries. -/
def getRecentNotifications (history : List Notification) (limit : Nat) : List Notification :=
  history.take limit

/-- Append a batch of notifications in order (scenario helper for the history
capacity property). -/
def appendAll (history : List Notification) (ns : List Notification) (now : Nat) :
    List Notification :=
  ns.foldl (fun h n => addNotification h n now) history

/-- assignUserToRooms (src/unnamed/part_000, lines 58-89): the global room, the
switch on the role, and the per-user private room, in source order. -/
def assignUserToRooms (userRol : String) (userId : Nat) : List String :=
  ["notificaciones_globales"]
    ++ (match userRol with
        | "cocinero" => ["cocineros"]
        | "mesero" => ["meseros"]
        | "administrador" => ["administradores", "cocineros", "meseros"]
        | _ => [])
    ++ ["usuario_" ++ toString userId]

/-- What the obtener_historial handler emits back to the requesting socket. -/
inductive SocketReply where
  | historialDashboard (snapshot : List Notification)
  | errorEvent (message : String)
deriving DecidableEq, Repr

/-- The obtener_historial handler (src/backend/src/socket/events.js, lines
42-49): administrators get the recent-history snapshot (default limit
maxHistory), everyone else gets an error event. -/
def obtenerHistorialHandler (userRol : String) (history : List Notification) : SocketReply :=
  if userRol = "administrador" then
    SocketReply.historialDashboard (getRecentNotifications history maxHistory)
  else
    SocketReply.errorEvent "No autorizado para obtener historial"

/-! ### Invariant vocabulary -/

/-- A row is ACTIVE when revoked_at is null. -/
def isActiveRow (r : SessionRow) : Bool := decide (r.revoked_at = none)

/-- The ACTIVE rows of the table. -/
def activeRows (st : Store) : Store := st.filter isActiveRow

/-- A rotation chain laid out oldest-first: every row but the last is terminal
and its replaced_by_token_hash points at the token_hash of its successor; the
last row is ACTIVE. -/
def threaded : List SessionRow → Prop
  | [] => True
  | [r] => r.revoked_at = none
  | r :: r2 :: rs =>
    r.revoked_at ≠ none ∧ r.replaced_by_token_hash = some r2.token_hash ∧ threaded (r2 :: rs)

/-! ### Supporting lemmas -/

theorem encodeOptNat_inj {a b : Option Nat} (h : encodeOptNat a = encodeOptNat b) : a = b := by
  cases a <;> cases b <;> simp_all [encodeOptNat]

theorem hashToken_inj {t₁ t₂ : Token} (h : hashToken t₁ = hashToken t₂) : t₁ = t₂ := by
  unfold hashToken at h
  obtain ⟨h1, h2⟩ := Nat.pair_eq_pair.mp h
  obtain ⟨h3, h4⟩ := Nat.pair_eq_pair.mp h2
  obtain ⟨h5, h6⟩ := Nat.pair_eq_pair.mp h4
  cases t₁; cases t₂
  simp_all
  exact encodeOptNat_inj h3

theorem matchesActive_iff {sid : Option Nat} {uid th now : Nat} {r : SessionRow} :
    matchesActiveSession sid uid th now r = true ↔
      some r.session_id = sid ∧ r.usuario_id = uid ∧ r.token_hash = th ∧
        r.revoked_at = none ∧ now < r.expires_at := by
  simp [matchesActiveSession, and_assoc]

theorem find?_append_of_none {p : SessionRow → Bool} {l₁ : Store} (l₂ : Store)
    (h : ∀ r ∈ l₁, p r = false) : (l₁ ++ l₂).find? p = l₂.find? p := by
  induction l₁ with
  | nil => rfl
  | cons a l ih =>
    have ha : p a = false := h a (by simp)
    simp only [List.cons_append, List.find?, ha]
    exact ih fun r hr => h r (by simp [hr])

theorem updateFirst_append {p : SessionRow → Bool} {f : SessionRow → SessionRow}
    {l₁ : Store} {last : SessionRow} (h : ∀ r ∈ l₁, p r = false) (hp : p last = true) :
    updateFirst p f (l₁ ++ [last]) = l₁ ++ [f last] := by
  induction l₁ with
  | nil => simp [updateFirst, hp]
  | cons a l ih =>
    have ha : p a = false := h a (by simp)
    simp only [List.cons_append, updateFirst, ha, Bool.false_eq_true, if_false, List.append_eq]
    rw [ih fun r hr => h r (by simp [hr])]

theorem find?_decomp {p : SessionRow → Bool} (f : SessionRow → SessionRow)
    {st : Store} {row : SessionRow} (h : st.find? p = some row) :
    ∃ l₁ l₂, st = l₁ ++ row :: l₂ ∧ (∀ r ∈ l₁, p r = false) ∧
      updateFirst p f st = l₁ ++ f row :: l₂ := by
  induction st with
  | nil => simp [List.find?] at h
  | cons a l ih =>
    by_cases ha : p a
    · simp only [List.find?, ha] at h
      obtain rfl : a = row := by simpa using h
      exact ⟨[], l, by simp, by simp, by simp [updateFirst, ha]⟩
    · have ha' : p a = false := by simpa using ha
      simp only [List.find?, ha'] at h
      obtain ⟨l₁, l₂, hst, hfalse, hupd⟩ := ih h
      refine ⟨a :: l₁, l₂, by simp [hst], ?_, ?_⟩
      · intro r hr
        rcases List.mem_cons.mp hr with rfl | hr2
        · exact ha'
        · exact hfalse r hr2
      · simp [updateFirst, ha', hupd]

theorem revokeAllActive_no_active {uid now : Nat} {st : Store} :
    ∀ r ∈ revokeAllActive uid now st, r.usuario_id = uid → r.revoked_at ≠ none := by
  intro r hr huid
  simp only [revokeAllActive, List.mem_map] at hr
  obtain ⟨r₀, _, rfl⟩ := hr
  by_cases hc : r₀.usuario_id = uid && r₀.revoked_at = none
  · simp [hc]
  · simp only [hc, if_false]
    simp only [hc, if_false] at huid
    simp only [Bool.and_eq_true, decide_eq_true_eq] at hc
    intro habs
    exact hc ⟨huid, habs⟩

theorem revokeAllActive_mem_set {uid now : Nat} {st : Store} {r : SessionRow}
    (hr : r ∈ st) (hu : r.usuario_id = uid) (ha : r.revoked_at = none) :
    { r with revoked_at := some now } ∈ revokeAllActive uid now st := by
  simp only [revokeAllActive, List.mem_map]
  exact ⟨r, hr, by simp [hu, ha]⟩

theorem revokeAllActive_mem_frame {uid now : Nat} {st : Store} {r : SessionRow}
    (hr : r ∈ st) (h : ¬ (r.usuario_id = uid ∧ r.revoked_at = none)) :
    r ∈ revokeAllActive uid now st := by
  simp only [revokeAllActive, List.mem_map]
  refine ⟨r, hr, ?_⟩
  have : (r.usuario_id = uid && r.revoked_at = none) = false := by
    simp only [Bool.and_eq_true, decide_eq_true_eq, ← Bool.not_eq_true]
    intro habs
    exact h habs
  simp [this]

theorem threaded_init_revoked {last : SessionRow} :
    ∀ {init : Store}, threaded (init ++ [last]) → ∀ r ∈ init, r.revoked_at ≠ none := by
  intro init
  induction init with
  | nil => intro _ r hr; simp at hr
  | cons a l ih =>
    intro h r hr
    rcases List.mem_cons.mp hr with rfl | hr2
    · cases l with
      | nil => exact h.1
      | cons b bs => exact h.1
    · refine ih ?_ r hr2
      cases l with
      | nil => simp at hr2
      | cons b bs => exact h.2.2

theorem threaded_rotate {init : Store} {last last' newRow : SessionRow}
    (h : threaded (init ++ [last]))
    (h1 : last'.revoked_at ≠ none)
    (h2 : last'.replaced_by_token_hash = some newRow.token_hash)
    (h3 : last'.token_hash = last.token_hash)
    (h4 : newRow.revoked_at = none) :
    threaded (init ++ [last', newRow]) := by
  induction init with
  | nil => exact ⟨h1, h2, h4⟩
  | cons a l ih =>
    cases l with
    | nil => exact ⟨h.1, by rw [h3]; exact h.2.1, h1, h2, h4⟩
    | cons b bs => exact ⟨h.1, h.2.1, ih h.2.2⟩

theorem nodup_split_hash_ne {l₁ l₂ : Store} {row : SessionRow}
    (h : ((l₁ ++ row :: l₂).map SessionRow.token_hash).Nodup) :
    ∀ r, r ∈ l₁ ∨ r ∈ l₂ → r.token_hash ≠ row.token_hash := by
  rw [List.map_append, List.map_cons, List.nodup_append] at h
  obtain ⟨_, hcons, hdisj⟩ := h
  intro r hr habs
  rcases hr with hr1 | hr2
  · exact hdisj (List.mem_map_of_mem SessionRow.token_hash hr1)
      (by rw [habs]; exact List.mem_cons_self _ _)
  · exact (List.nodup_cons.mp hcons).1 (habs ▸ List.mem_map_of_mem SessionRow.token_hash hr2)

/-! ### Branch characterizations of the refresh handler -/

theorem refresh_missing_branch {env : Env} {req : AuthRequest} {st : Store} {now nsid : Nat}
    (h : presentedToken req = none) :
    refreshTokenHandler env req st now nsid = ⟨401, st, CookieEffect.untouched, none⟩ := by
  simp [refreshTokenHandler, h]

theorem refresh_invalid_branch {env : Env} {req : AuthRequest} {st : Store} {now nsid : Nat}
    {tok : Token} (h1 : presentedToken req = some tok)
    (h2 : verifyJwt tok env.refreshTokenSecret now = none) :
    refreshTokenHandler env req st now nsid = ⟨403, st, CookieEffect.cleared, none⟩ := by
  simp [refreshTokenHandler, h1, h2]

theorem refresh_reuse_branch {env : Env} {req : AuthRequest} {st : Store} {now nsid : Nat}
    {tok : Token} {c : JwtClaims} (h1 : presentedToken req = some tok)
    (h2 : verifyJwt tok env.refreshTokenSecret now = some c)
    (h3 : st.find? (matchesActiveSession c.sessionId c.id (hashToken tok) now) = none) :
    refreshTokenHandler env req st now nsid =
      ⟨403, revokeAllActive c.id now st, CookieEffect.cleared, none⟩ := by
  simp [refreshTokenHandler, h1, h2, h3]

theorem refresh_rotate_branch {env : Env} {req : AuthRequest} {st : Store} {now nsid : Nat}
    {tok : Token} {c : JwtClaims} {row : SessionRow} (h1 : presentedToken req = some tok)
    (h2 : verifyJwt tok env.refreshTokenSecret now = some c)
    (h3 : st.find? (matchesActiveSession c.sessionId c.id (hashToken tok) now) = some row) :
    refreshTokenHandler env req st now nsid =
      ⟨200,
        updateFirst (matchesActiveSession c.sessionId c.id (hashToken tok) now)
          (fun r => { r with
              revoked_at := some now
              replaced_by_token_hash := some (hashToken (createRefreshToken env c.id nsid now)) })
          st ++
          [{ session_id := nsid
             usuario_id := c.id
             token_hash := hashToken (createRefreshToken env c.id nsid now)
             replaced_by_token_hash := none
             revoked_at := none
             expires_at := now + env.refreshTokenMaxAgeMs
             user_agent := req.userAgent
             ip_address := req.ipAddress }],
        CookieEffect.set (createRefreshToken env c.id nsid now),
        some (createAccessToken env c.id now)⟩ := by
  simp [refreshTokenHandler, h1, h2, h3]

theorem verifyJwt_eq_some_iff {t : Token} {secret now : Nat} {c : JwtClaims} :
    verifyJwt t secret now = some c ↔
      t.secret = secret ∧ now < t.exp ∧ c = ⟨t.payload_id, t.payload_session_id⟩ := by
  unfold verifyJwt
  by_cases h : t.secret = secret ∧ now < t.exp
  · simp [h, eq_comm]
  · rw [if_neg h]
    constructor
    · intro habs; simp at habs
    · rintro ⟨hs, hlt, -⟩; exact absurd ⟨hs, hlt⟩ h

theorem verifyJwt_none_mono {t : Token} {secret now now₂ : Nat}
    (h : verifyJwt t secret now = none) (hle : now ≤ now₂) :
    verifyJwt t secret now₂ = none := by
  unfold verifyJwt at h ⊢
  by_cases hs : t.secret = secret
  · by_cases hlt : now < t.exp
    · simp [hs, hlt] at h
    · have h2 : ¬ now₂ < t.exp := by omega
      simp [h2]
  · simp [hs]

/-! ### Claim theorems -/

/-- Claim C5: a refresh request that presents no refresh token (neither refresh
cookie nor body fallback) returns 401, leaves the refresh cookie untouched, and
performs no session-store mutation. -/
theorem claimC5_missing_token_no_mutation (env : Env) (req : AuthRequest) (st : Store)
    (now nsid : Nat) (h : presentedToken req = none) :
    refreshTokenHandler env req st now nsid = ⟨401, st, CookieEffect.untouched, none⟩ :=
  refresh_missing_branch h

/-- Concrete instantiation of claimC5_missing_token_no_mutation. -/
theorem claimC5_missing_token_no_mutation_witness :
    presentedToken ⟨none, none, none, none⟩ = none ∧
    refreshTokenHandler ⟨2, 1, 15, 700, 700⟩ ⟨none, none, none, none⟩
        [⟨5, 10, 377, none, none, 700, none, none⟩] 50 6 =
      ⟨401, [⟨5, 10, 377, none, none, 700, none, none⟩], CookieEffect.untouched, none⟩ :=
  ⟨rfl, claimC5_missing_token_no_mutation _ _ _ _ _ rfl⟩

/-- Claim C9: a presented refresh token that fails cryptographic verification
yields 403 with the cookie cleared and no session row modified; moreover any
call that does mutate the store must have presented a token that verified
against the refresh secret. -/
theorem claimC9_invalid_token_no_mutation :
    (∀ (env : Env) (req : AuthRequest) (st : Store) (now nsid : Nat) (tok : Token),
      presentedToken req = some tok →
      verifyJwt tok env.refreshTokenSecret now = none →
      refreshTokenHandler env req st now nsid = ⟨403, st, CookieEffect.cleared, none⟩) ∧
    (∀ (env : Env) (req : AuthRequest) (st : Store) (now nsid : Nat),
      (refreshTokenHandler env req st now nsid).store ≠ st →
      ∃ tok c, presentedToken req = some tok ∧
        verifyJwt tok env.refreshTokenSecret now = some c) := by
  constructor
  · intro env req st now nsid tok h1 h2
    exact refresh_invalid_branch h1 h2
  · intro env req st now nsid h
    cases hp : presentedToken req with
    | none =>
      exact absurd (congrArg RefreshResult.store (refresh_missing_branch hp)) h
    | some tok =>
      cases hv : verifyJwt tok env.refreshTokenSecret now with
      | none =>
        exact absurd (congrArg RefreshResult.store (refresh_invalid_branch hp hv)) h
      | some c => exact ⟨tok, c, rfl, hv⟩

/-- Concrete instantiation of claimC9_invalid_token_no_mutation: a token signed
with the wrong secret is rejected with 403, cleared cookie, untouched store. -/
theorem claimC9_invalid_token_no_mutation_witness :
    presentedToken ⟨some ⟨10, some 5, 99, 700⟩, none, none, none⟩ = some ⟨10, some 5, 99, 700⟩ ∧
    verifyJwt ⟨10, some 5, 99, 700⟩ 1 50 = none ∧
    refreshTokenHandler ⟨2, 1, 15, 700, 700⟩ ⟨some ⟨10, some 5, 99, 700⟩, none, none, none⟩
        [⟨5, 10, 377, none, none, 700, none, none⟩] 50 6 =
      ⟨403, [⟨5, 10, 377, none, none, 700, none, none⟩], CookieEffect.cleared, none⟩ :=
  ⟨rfl, by decide, claimC9_invalid_token_no_mutation.1 _ _ _ _ _ _ rfl (by decide)⟩

/-- Claim C3: the active-session lookup is strict about expiry (Op.gt): a row
whose expires_at equals now is not matched, and a refresh whose token only
matches such expired rows takes the reuse-detection branch. -/
theorem claimC3_strict_expiry :
    (∀ (sid : Option Nat) (uid th now : Nat) (r : SessionRow), r.expires_at = now →
      matchesActiveSession sid uid th now r = false) ∧
    (∀ (env : Env) (req : AuthRequest) (st : Store) (now nsid : Nat) (tok : Token)
        (c : JwtClaims),
      presentedToken req = some tok →
      verifyJwt tok env.refreshTokenSecret now = some c →
      (∀ r ∈ st, r.token_hash = hashToken tok → r.expires_at ≤ now) →
      refreshTokenHandler env req st now nsid =
        ⟨403, revokeAllActive c.id now st, CookieEffect.cleared, none⟩) := by
  constructor
  · intro sid uid th now r he
    simp [matchesActiveSession, he]
  · intro env req st now nsid tok c h1 h2 hexp
    refine refresh_reuse_branch h1 h2 (List.find?_eq_none.mpr ?_)
    intro r hr habs
    obtain ⟨_, _, hhash, _, hlt⟩ := matchesActive_iff.mp habs
    exact absurd hlt (by have := hexp r hr hhash; omega)

/-- Concrete instantiation of claimC3_strict_expiry: a row expiring exactly at
the current instant is skipped and the refresh revokes the user's sessions. -/
theorem claimC3_strict_expiry_witness :
    matchesActiveSession (some 5) 10 377 50 ⟨5, 10, 377, none, none, 50, none, none⟩ = false ∧
    refreshTokenHandler ⟨2, 1, 15, 700, 700⟩ ⟨some ⟨10, some 5, 1, 700⟩, none, none, none⟩
        [⟨5, 10, hashToken ⟨10, some 5, 1, 700⟩, none, none, 50, none, none⟩] 50 6 =
      ⟨403,
        [⟨5, 10, hashToken ⟨10, some 5, 1, 700⟩, none, some 50, 50, none, none⟩],
        CookieEffect.cleared, none⟩ := by
  constructor
  · exact (claimC3_strict_expiry.1 (some 5) 10 377 50 _ rfl)
  · have h := claimC3_strict_expiry.2 ⟨2, 1, 15, 700, 700⟩
      ⟨some ⟨10, some 5, 1, 700⟩, none, none, none⟩
      [⟨5, 10, hashToken ⟨10, some 5, 1, 700⟩, none, none, 50, none, none⟩] 50 6
      ⟨10, some 5, 1, 700⟩ ⟨10, some 5⟩ rfl (by decide)
      (by intro r hr _; simp at hr; simp [hr])
    rw [h]
    simp [revokeAllActive]

/-- Claim C7: room assignment is a deterministic function of the role: every
connection joins the global room and its private per-user room; cocinero joins
cocineros, mesero joins meseros, administrador joins administradores plus
cocineros plus meseros, and any unrecognized role joins no role-specific room. -/
theorem claimC7_room_assignment :
    (∀ uid : Nat, assignUserToRooms "cocinero" uid =
      ["notificaciones_globales", "cocineros", "usuario_" ++ toString uid]) ∧
    (∀ uid : Nat, assignUserToRooms "mesero" uid =
      ["notificaciones_globales", "meseros", "usuario_" ++ toString uid]) ∧
    (∀ uid : Nat, assignUserToRooms "administrador" uid =
      ["notificaciones_globales", "administradores", "cocineros", "meseros",
        "usuario_" ++ toString uid]) ∧
    (∀ (rol : String) (uid : Nat), rol ≠ "cocinero" → rol ≠ "mesero" → rol ≠ "administrador" →
      assignUserToRooms rol uid = ["notificaciones_globales", "usuario_" ++ toString uid]) ∧
    (∀ (rol : String) (uid : Nat), "notificaciones_globales" ∈ assignUserToRooms rol uid ∧
      ("usuario_" ++ toString uid) ∈ assignUserToRooms rol uid) := by
  refine ⟨fun _ => rfl, fun _ => rfl, fun _ => rfl, ?_, ?_⟩
  · intro rol uid h1 h2 h3
    unfold assignUserToRooms
    split
    · exact absurd rfl h1
    · exact absurd rfl h2
    · exact absurd rfl h3
    · rfl
  · intro rol uid
    unfold assignUserToRooms
    split <;> simp

/-- Concrete instantiation of claimC7_room_assignment: an unrecognized role
joins only the global and private rooms. -/
theorem claimC7_room_assignment_witness :
    assignUserToRooms "chef" 3 = ["notificaciones_globales", "usuario_3"] ∧
    "usuario_7" ∈ assignUserToRooms "administrador" 7 := by
  constructor
  · exact claimC7_room_assignment.2.2.2.1 "chef" 3 (by decide) (by decide) (by decide)
  · exact (claimC7_room_assignment.2.2.2.2 "administrador" 7).2

/-- Claim C8: the obtener_historial socket event always answers: administrators
receive the current history snapshot, every other role receives an
authorization-error event. -/
theorem claimC8_request_history :
    ∀ (userRol : String) (history : List Notification),
      (userRol = "administrador" → obtenerHistorialHandler userRol history =
        SocketReply.historialDashboard (getRecentNotifications history maxHistory)) ∧
      (userRol ≠ "administrador" → obtenerHistorialHandler userRol history =
        SocketReply.errorEvent "No autorizado para obtener historial") := by
  intro rol hist
  constructor
  · intro h; simp [obtenerHistorialHandler, h]
  · intro h; simp [obtenerHistorialHandler, h]

/-- Concrete instantiation of claimC8_request_history. -/
theorem claimC8_request_history_witness :
    obtenerHistorialHandler "administrador" [] = SocketReply.historialDashboard [] ∧
    obtenerHistorialHandler "mesero" [] =
      SocketReply.errorEvent "No autorizado para obtener historial" :=
  ⟨(claimC8_request_history "administrador" []).1 rfl,
   (claimC8_request_history "mesero" []).2 (by decide)⟩

/-- Claim C10: on the mounted login, valid credentials for a user whose
must_change_password flag is set yield a 200 response carrying
mustChangePassword and the user id, with no access token, no refresh token and
no created session row. -/
theorem claimC10_must_change_password :
    ∀ (env : Env) (u : Usuario) (pw : String) (now : Nat),
      bcryptCompare pw u.contrasena = true → u.must_change_password = true →
      loginMounted env (some u) pw now =
        ⟨200,
          { LoginBody.empty with mustChangePassword := some true, usuario_id := some u.usuario_id },
          CookieEffect.untouched, []⟩ := by
  intro env u pw now hpw hflag
  simp [loginMounted, hpw, hflag]

/-- Concrete instantiation of claimC10_must_change_password: a 200 login
response with no access token. -/
theorem claimC10_must_change_password_witness :
    bcryptCompare "pw1" (bcryptHash "pw1") = true ∧
    (loginMounted ⟨2, 1, 15, 700, 700⟩ (some ⟨10, "Ana", "administrador", bcryptHash "pw1", true⟩)
        "pw1" 0).status = 200 ∧
    (loginMounted ⟨2, 1, 15, 700, 700⟩ (some ⟨10, "Ana", "administrador", bcryptHash "pw1", true⟩)
        "pw1" 0).body.accessToken = none ∧
    (loginMounted ⟨2, 1, 15, 700, 700⟩ (some ⟨10, "Ana", "administrador", bcryptHash "pw1", true⟩)
        "pw1" 0).body.mustChangePassword = some true ∧
    (loginMounted ⟨2, 1, 15, 700, 700⟩ (some ⟨10, "Ana", "administrador", bcryptHash "pw1", true⟩)
        "pw1" 0).createdSessions = [] := by
  have h := claimC10_must_change_password ⟨2, 1, 15, 700, 700⟩
    ⟨10, "Ana", "administrador", bcryptHash "pw1", true⟩ "pw1" 0 rfl rfl
  refine ⟨rfl, ?_, ?_, ?_, ?_⟩ <;> simp [h, LoginBody.empty]

/-! ### Logout lemmas and claim C4 -/

theorem logout_store_missing {env : Env} {req : AuthRequest} {st : Store} {now : Nat}
    (h : presentedToken req = none) : (logoutHandler env req st now).store = st := by
  simp [logoutHandler, h]

theorem logout_store_invalid {env : Env} {req : AuthRequest} {st : Store} {now : Nat}
    {tok : Token} (h1 : presentedToken req = some tok)
    (h2 : verifyJwt tok env.refreshTokenSecret now = none) :
    (logoutHandler env req st now).store = st := by
  simp [logoutHandler, h1, h2]

theorem logout_store_verified {env : Env} {req : AuthRequest} {st : Store} {now : Nat}
    {tok : Token} {c : JwtClaims} (h1 : presentedToken req = some tok)
    (h2 : verifyJwt tok env.refreshTokenSecret now = some c) :
    (logoutHandler env req st now).store = st.map (fun r =>
      if some r.session_id = c.sessionId && r.usuario_id = c.id && r.revoked_at = none
      then { r with revoked_at := some now } else r) := by
  simp [logoutHandler, h1, h2]

/-- Claim C4: logout always returns 200 with the cookie cleared and a fixed
message exposing no session internals; when the presented token verifies, every
row matching its sessionId and userId ends up revoked; and repeating logout
with the same request leaves the store unchanged. -/
theorem claimC4_logout_idempotent :
    (∀ (env : Env) (req : AuthRequest) (st : Store) (now : Nat),
      (logoutHandler env req st now).status = 200 ∧
      (logoutHandler env req st now).cookie = CookieEffect.cleared ∧
      (logoutHandler env req st now).body = "Sesión cerrada exitosamente.") ∧
    (∀ (env : Env) (req : AuthRequest) (st : Store) (now : Nat) (tok : Token) (c : JwtClaims),
      presentedToken req = some tok →
      verifyJwt tok env.refreshTokenSecret now = some c →
      ∀ r ∈ (logoutHandler env req st now).store,
        some r.session_id = c.sessionId → r.usuario_id = c.id → r.revoked_at ≠ none) ∧
    (∀ (env : Env) (req : AuthRequest) (st : Store) (now now₂ : Nat), now ≤ now₂ →
      (logoutHandler env req (logoutHandler env req st now).store now₂).store =
        (logoutHandler env req st now).store) := by
  refine ⟨?_, ?_, ?_⟩
  · intro env req st now
    cases hp : presentedToken req with
    | none => simp [logoutHandler, hp]
    | some tok =>
      cases hv : verifyJwt tok env.refreshTokenSecret now with
      | none => simp [logoutHandler, hp, hv]
      | some c => simp [logoutHandler, hp, hv]
  · intro env req st now tok c h1 h2 r hr hsid huid
    rw [logout_store_verified h1 h2] at hr
    simp only [List.mem_map] at hr
    obtain ⟨r₀, _, rfl⟩ := hr
    by_cases hc : some r₀.session_id = c.sessionId && r₀.usuario_id = c.id &&
        r₀.revoked_at = none
    · simp [hc]
    · simp only [hc, if_false]
      simp only [hc, if_false] at hsid huid
      simp only [Bool.and_eq_true, decide_eq_true_eq] at hc
      intro habs
      exact hc ⟨⟨hsid, huid⟩, habs⟩
  · intro env req st now now₂ hle
    cases hp : presentedToken req with
    | none => exact logout_store_missing hp
    | some tok =>
      cases hv : verifyJwt tok env.refreshTokenSecret now with
      | none => exact logout_store_invalid hp (verifyJwt_none_mono hv hle)
      | some c =>
        cases hv₂ : verifyJwt tok env.refreshTokenSecret now₂ with
        | none => exact logout_store_invalid hp hv₂
        | some c₂ =>
          have hc : c = ⟨tok.payload_id, tok.payload_session_id⟩ :=
            (verifyJwt_eq_some_iff.mp hv).2.2
          have hc₂ : c₂ = ⟨tok.payload_id, tok.payload_session_id⟩ :=
            (verifyJwt_eq_some_iff.mp hv₂).2.2
          rw [logout_store_verified hp hv₂, logout_store_verified hp hv, List.map_map]
          refine List.map_congr_left ?_
          intro r _
          by_cases hcond : some r.session_id = c.sessionId && r.usuario_id = c.id &&
              r.revoked_at = none
          · simp only [Function.comp_apply, hcond, if_true]
            have : (some r.session_id = c₂.sessionId && r.usuario_id = c₂.id &&
                (some now : Option Nat) = none) = false := by simp
            simp [this]
          · simp only [Function.comp_apply, hcond, if_false]
            have : (some r.session_id = c₂.sessionId && r.usuario_id = c₂.id &&
                r.revoked_at = none) = false := by
              rw [hc₂, ← hc]
              simpa using hcond
            simp [this]

/-- Concrete instantiation of claimC4_logout_idempotent: logout of an active
session revokes it, returns 200 with the cookie cleared, and a second logout
leaves the store unchanged. -/
theorem claimC4_logout_idempotent_witness :
    (logoutHandler ⟨2, 1, 15, 700, 700⟩ ⟨some ⟨10, some 5, 1, 700⟩, none, none, none⟩
        [⟨5, 10, hashToken ⟨10, some 5, 1, 700⟩, none, none, 700, none, none⟩] 50).status = 200 ∧
    (logoutHandler ⟨2, 1, 15, 700, 700⟩ ⟨some ⟨10, some 5, 1, 700⟩, none, none, none⟩
        [⟨5, 10, hashToken ⟨10, some 5, 1, 700⟩, none, none, 700, none, none⟩] 50).cookie =
      CookieEffect.cleared ∧
    (∀ r ∈ (logoutHandler ⟨2, 1, 15, 700, 700⟩ ⟨some ⟨10, some 5, 1, 700⟩, none, none, none⟩
        [⟨5, 10, hashToken ⟨10, some 5, 1, 700⟩, none, none, 700, none, none⟩] 50).store,
      some r.session_id = some 5 → r.usuario_id = 10 → r.revoked_at ≠ none) ∧
    (logoutHandler ⟨2, 1, 15, 700, 700⟩ ⟨some ⟨10, some 5, 1, 700⟩, none, none, none⟩
        ((logoutHandler ⟨2, 1, 15, 700, 700⟩ ⟨some ⟨10, some 5, 1, 700⟩, none, none, none⟩
          [⟨5, 10, hashToken ⟨10, some 5, 1, 700⟩, none, none, 700, none, none⟩] 50).store)
        60).store =
      (logoutHandler ⟨2, 1, 15, 700, 700⟩ ⟨some ⟨10, some 5, 1, 700⟩, none, none, none⟩
        [⟨5, 10, hashToken ⟨10, some 5, 1, 700⟩, none, none, 700, none, none⟩] 50).store := by
  refine ⟨(claimC4_logout_idempotent.1 _ _ _ _).1, (claimC4_logout_idempotent.1 _ _ _ _).2.1,
    ?_, claimC4_logout_idempotent.2.2 _ _ _ 50 60 (by omega)⟩
  exact claimC4_logout_idempotent.2.1 ⟨2, 1, 15, 700, 700⟩ _ _ 50 ⟨10, some 5, 1, 700⟩
    ⟨10, some 5⟩ rfl (by decide)

/-! ### Notification history lemmas and claim C6 -/

theorem addNotification_eq_take (history : List Notification) (n : Notification) (now : Nat) :
    addNotification history n now = (stampNotification now n :: history).take maxHistory := by
  unfold addNotification
  by_cases hl : (stampNotification now n :: history).length > maxHistory
  · simp [hl]
  · simp only [hl, if_false]
    rw [List.take_of_length_le (by omega)]

theorem addNotification_length_le (history : List Notification) (n : Notification) (now : Nat) :
    (addNotification history n now).length ≤ maxHistory := by
  rw [addNotification_eq_take]
  simp [List.length_take]

theorem take_append_take {α : Type} (k : Nat) (L m : List α) :
    (L ++ m.take k).take k = (L ++ m).take k := by
  rw [List.take_append_eq_append_take, List.take_append_eq_append_take, List.take_take,
    Nat.min_eq_left (Nat.sub_le _ _)]

theorem appendAll_eq_take (ns : List Notification) (now : Nat) :
    ∀ acc : List Notification, acc.take maxHistory = acc →
      appendAll acc ns now = ((ns.map (stampNotification now)).reverse ++ acc).take maxHistory := by
  induction ns with
  | nil => intro acc hacc; simpa [appendAll] using hacc.symm
  | cons n rest ih =>
    intro acc hacc
    have hstep : appendAll acc (n :: rest) now = appendAll (addNotification acc n now) rest now :=
      rfl
    rw [hstep, ih (addNotification acc n now)
      (List.take_of_length_le (addNotification_length_le _ _ _))]
    rw [addNotification_eq_take, List.map_cons, List.reverse_cons, List.append_assoc,
      List.singleton_append]
    exact take_append_take maxHistory _ _

/-- Claim C6: the notification history never exceeds 6 entries; append stamps a
missing timestamp, inserts at the front and truncates to the 6 most recent; and
after appending 10 notifications, requesting 10 returns exactly the last 6 in
reverse insertion order. -/
theorem claimC6_history_bounded :
    (∀ (history : List Notification) (n : Notification) (now : Nat),
      (addNotification history n now).length ≤ maxHistory) ∧
    (∀ (history : List Notification) (n : Notification) (now : Nat),
      addNotification history n now = (stampNotification now n :: history).take maxHistory) ∧
    (∀ (ns : List Notification) (now : Nat), ns.length = 10 →
      getRecentNotifications (appendAll [] ns now) 10 =
        ((ns.map (stampNotification now)).reverse).take maxHistory) := by
  refine ⟨addNotification_length_le, addNotification_eq_take, ?_⟩
  intro ns now _
  rw [getRecentNotifications, appendAll_eq_take ns now [] rfl, List.append_nil, List.take_take]
  rfl

/-- The ten notifications of the history capacity scenario. -/
def scenarioNotifications : List Notification :=
  [⟨"e1", "m", 1, some 1, "low"⟩, ⟨"e2", "m", 2, some 2, "low"⟩,
   ⟨"e3", "m", 3, some 3, "low"⟩, ⟨"e4", "m", 4, some 4, "low"⟩,
   ⟨"e5", "m", 5, some 5, "low"⟩, ⟨"e6", "m", 6, some 6, "low"⟩,
   ⟨"e7", "m", 7, some 7, "low"⟩, ⟨"e8", "m", 8, some 8, "low"⟩,
   ⟨"e9", "m", 9, some 9, "low"⟩, ⟨"e10", "m", 10, some 10, "low"⟩]

/-- Concrete instantiation of claimC6_history_bounded: ten appended
notifications leave exactly the last six, most recent first. -/
theorem claimC6_history_bounded_witness :
    (addNotification [] ⟨"nuevo_pedido", "m", 0, none, "high"⟩ 99).length ≤ maxHistory ∧
    scenarioNotifications.length = 10 ∧
    getRecentNotifications (appendAll [] scenarioNotifications 99) 10 =
      [⟨"e10", "m", 10, some 10, "low"⟩, ⟨"e9", "m", 9, some 9, "low"⟩,
       ⟨"e8", "m", 8, some 8, "low"⟩, ⟨"e7", "m", 7, some 7, "low"⟩,
       ⟨"e6", "m", 6, some 6, "low"⟩, ⟨"e5", "m", 5, some 5, "low"⟩] := by
  refine ⟨claimC6_history_bounded.1 _ _ _, rfl, ?_⟩
  rw [claimC6_history_bounded.2.2 scenarioNotifications 99 rfl]
  decide

/-! ### Claim C2: rotation and the chain invariant -/

theorem activeRows_nil_of_revoked {l : Store} (h : ∀ r ∈ l, r.revoked_at ≠ none) :
    activeRows l = [] := by
  induction l with
  | nil => rfl
  | cons a t ih =>
    have ha : isActiveRow a = false := by
      simp [isActiveRow]
      exact h a (by simp)
    simp only [activeRows, List.filter_cons, ha, Bool.false_eq_true, if_false]
    exact ih fun r hr => h r (by simp [hr])

/-- Claim C2: a refresh whose token matches the single ACTIVE row of a rotation
chain atomically marks that row terminal (revoked_at set, replaced_by_token_hash
pointing at the new token hash), appends a fresh ACTIVE row under a fresh
sessionId, issues a new access token and refresh cookie, and preserves the chain
invariant: exactly one ACTIVE row, all prior rows terminal and threading to the
hash of their successor. -/
theorem claimC2_rotation_chain :
    ∀ (env : Env) (req : AuthRequest) (init : Store) (last : SessionRow) (now nsid : Nat)
      (tok : Token) (c : JwtClaims),
      presentedToken req = some tok →
      verifyJwt tok env.refreshTokenSecret now = some c →
      threaded (init ++ [last]) →
      matchesActiveSession c.sessionId c.id (hashToken tok) now last = true →
      refreshTokenHandler env req (init ++ [last]) now nsid =
        ⟨200,
          init ++
            [{ last with
                revoked_at := some now
                replaced_by_token_hash := some (hashToken (createRefreshToken env c.id nsid now)) },
             { session_id := nsid
               usuario_id := c.id
               token_hash := hashToken (createRefreshToken env c.id nsid now)
               replaced_by_token_hash := none
               revoked_at := none
               expires_at := now + env.refreshTokenMaxAgeMs
               user_agent := req.userAgent
               ip_address := req.ipAddress }],
          CookieEffect.set (createRefreshToken env c.id nsid now),
          some (createAccessToken env c.id now)⟩ ∧
      threaded (refreshTokenHandler env req (init ++ [last]) now nsid).store ∧
      activeRows (refreshTokenHandler env req (init ++ [last]) now nsid).store =
        [{ session_id := nsid
           usuario_id := c.id
           token_hash := hashToken (createRefreshToken env c.id nsid now)
           replaced_by_token_hash := none
           revoked_at := none
           expires_at := now + env.refreshTokenMaxAgeMs
           user_agent := req.userAgent
           ip_address := req.ipAddress }] ∧
      (refreshTokenHandler env req (init ++ [last]) now nsid).store.length =
        (init ++ [last]).length + 1 := by
  intro env req init last now nsid tok c h1 h2 hth hp
  have hfalse : ∀ r ∈ init,
      matchesActiveSession c.sessionId c.id (hashToken tok) now r = false := by
    intro r hr
    have hrev := threaded_init_revoked hth r hr
    by_contra hne
    exact hrev (matchesActive_iff.mp (by simpa using hne)).2.2.2.1
  have hfind : (init ++ [last]).find?
      (matchesActiveSession c.sessionId c.id (hashToken tok) now) = some last := by
    rw [find?_append_of_none _ hfalse]
    simp [List.find?, hp]
  have hstore : (refreshTokenHandler env req (init ++ [last]) now nsid).store =
      init ++
        [{ last with
            revoked_at := some now
            replaced_by_token_hash := some (hashToken (createRefreshToken env c.id nsid now)) },
         { session_id := nsid
           usuario_id := c.id
           token_hash := hashToken (createRefreshToken env c.id nsid now)
           replaced_by_token_hash := none
           revoked_at := none
           expires_at := now + env.refreshTokenMaxAgeMs
           user_agent := req.userAgent
           ip_address := req.ipAddress }] := by
    rw [refresh_rotate_branch h1 h2 hfind]
    show updateFirst _ _ (init ++ [last]) ++ _ = _
    rw [updateFirst_append hfalse hp, List.append_assoc]
    rfl
  refine ⟨?_, ?_, ?_, ?_⟩
  · rw [refresh_rotate_branch h1 h2 hfind, updateFirst_append hfalse hp, List.append_assoc]
    rfl
  · rw [hstore]
    exact threaded_rotate hth (by simp) rfl rfl rfl
  · rw [hstore]
    unfold activeRows
    rw [List.filter_append]
    have h0 : List.filter isActiveRow init = [] :=
      activeRows_nil_of_revoked (threaded_init_revoked hth)
    rw [h0]
    simp [isActiveRow]
  · rw [hstore]
    simp

/-- Concrete instantiation of claimC2_rotation_chain: rotating the single
active session of a one-row chain leaves a two-row threaded chain with one
ACTIVE row. -/
theorem claimC2_rotation_chain_witness :
    threaded ([] ++ [(⟨5, 10, hashToken ⟨10, some 5, 1, 700⟩, none, none, 700, none, none⟩ :
      SessionRow)]) ∧
    matchesActiveSession (some 5) 10 (hashToken ⟨10, some 5, 1, 700⟩) 50
      ⟨5, 10, hashToken ⟨10, some 5, 1, 700⟩, none, none, 700, none, none⟩ = true ∧
    (refreshTokenHandler ⟨2, 1, 15, 700, 700⟩ ⟨some ⟨10, some 5, 1, 700⟩, none, none, none⟩
        ([] ++ [⟨5, 10, hashToken ⟨10, some 5, 1, 700⟩, none, none, 700, none, none⟩]) 50 6).status =
      200 ∧
    threaded (refreshTokenHandler ⟨2, 1, 15, 700, 700⟩
        ⟨some ⟨10, some 5, 1, 700⟩, none, none, none⟩
        ([] ++ [⟨5, 10, hashToken ⟨10, some 5, 1, 700⟩, none, none, 700, none, none⟩]) 50 6).store ∧
    (activeRows (refreshTokenHandler ⟨2, 1, 15, 700, 700⟩
        ⟨some ⟨10, some 5, 1, 700⟩, none, none, none⟩
        ([] ++ [⟨5, 10, hashToken ⟨10, some 5, 1, 700⟩, none, none, 700, none, none⟩]) 50 6).store).length =
      1 := by
  have h := claimC2_rotation_chain ⟨2, 1, 15, 700, 700⟩
    ⟨some ⟨10, some 5, 1, 700⟩, none, none, none⟩ []
    ⟨5, 10, hashToken ⟨10, some 5, 1, 700⟩, none, none, 700, none, none⟩ 50 6
    ⟨10, some 5, 1, 700⟩ ⟨10, some 5⟩ rfl (by decide) rfl (by decide)
  refine ⟨rfl, by decide, ?_, h.2.1, ?_⟩
  · rw [h.1]
  · rw [h.2.2.1]
    rfl

/-! ### Claim C1: reuse detection revokes the whole family -/

/-- Claim C1: a refresh token that verifies against the refresh secret but
matches no active session row is treated as a reuse/compromise signal: the
handler revokes every active session of that user (setting revoked_at on every
row of the user whose revoked_at was null, touching nothing else), clears the
cookie and fails 403; consequently presenting the same refresh token twice in
sequence makes the second presentation fail 403 and leaves zero ACTIVE rows for
that user. -/
theorem claimC1_reuse_revokes_family :
    (∀ (env : Env) (req : AuthRequest) (st : Store) (now nsid : Nat) (tok : Token)
        (c : JwtClaims),
      presentedToken req = some tok →
      verifyJwt tok env.refreshTokenSecret now = some c →
      st.find? (matchesActiveSession c.sessionId c.id (hashToken tok) now) = none →
      (refreshTokenHandler env req st now nsid).status = 403 ∧
      (refreshTokenHandler env req st now nsid).cookie = CookieEffect.cleared ∧
      (∀ r ∈ (refreshTokenHandler env req st now nsid).store,
        r.usuario_id = c.id → r.revoked_at ≠ none) ∧
      (∀ r ∈ st, r.usuario_id = c.id → r.revoked_at = none →
        { r with revoked_at := some now } ∈ (refreshTokenHandler env req st now nsid).store) ∧
      (∀ r ∈ st, ¬ (r.usuario_id = c.id ∧ r.revoked_at = none) →
        r ∈ (refreshTokenHandler env req st now nsid).store)) ∧
    (∀ (env : Env) (req : AuthRequest) (st : Store) (now now₂ nsid nsid₂ : Nat)
        (tok : Token) (c : JwtClaims) (row : SessionRow),
      presentedToken req = some tok →
      verifyJwt tok env.refreshTokenSecret now = some c →
      st.find? (matchesActiveSession c.sessionId c.id (hashToken tok) now) = some row →
      (st.map SessionRow.token_hash).Nodup →
      some nsid ≠ c.sessionId →
      now₂ < tok.exp →
      (refreshTokenHandler env req (refreshTokenHandler env req st now nsid).store
          now₂ nsid₂).status = 403 ∧
      (refreshTokenHandler env req (refreshTokenHandler env req st now nsid).store
          now₂ nsid₂).cookie = CookieEffect.cleared ∧
      (∀ r ∈ (refreshTokenHandler env req (refreshTokenHandler env req st now nsid).store
          now₂ nsid₂).store, r.usuario_id = c.id → r.revoked_at ≠ none)) := by
  constructor
  · intro env req st now nsid tok c h1 h2 hfind
    rw [refresh_reuse_branch h1 h2 hfind]
    refine ⟨rfl, rfl, ?_, ?_, ?_⟩
    · intro r hr
      exact revokeAllActive_no_active r hr
    · intro r hr hu ha
      exact revokeAllActive_mem_set hr hu ha
    · intro r hr h
      exact revokeAllActive_mem_frame hr h
  · intro env req st now now₂ nsid nsid₂ tok c row h1 h2 hfind hnodup hfresh hexp₂
    obtain ⟨hsec, hlt, hc⟩ := verifyJwt_eq_some_iff.mp h2
    have hver₂ : verifyJwt tok env.refreshTokenSecret now₂ = some c :=
      verifyJwt_eq_some_iff.mpr ⟨hsec, hexp₂, hc⟩
    have hprow : matchesActiveSession c.sessionId c.id (hashToken tok) now row = true :=
      List.find?_some hfind
    have hrowhash : row.token_hash = hashToken tok := (matchesActive_iff.mp hprow).2.2.1
    obtain ⟨l₁, l₂, hst, hfalse, hupd⟩ := find?_decomp
      (fun r => { r with
          revoked_at := some now
          replaced_by_token_hash := some (hashToken (createRefreshToken env c.id nsid now)) })
      hfind
    have hstore1 : (refreshTokenHandler env req st now nsid).store =
        l₁ ++ ({ row with
            revoked_at := some now
            replaced_by_token_hash := some (hashToken (createRefreshToken env c.id nsid now)) } ::
          (l₂ ++ [{ session_id := nsid
                    usuario_id := c.id
                    token_hash := hashToken (createRefreshToken env c.id nsid now)
                    replaced_by_token_hash := none
                    revoked_at := none
                    expires_at := now + env.refreshTokenMaxAgeMs
                    user_agent := req.userAgent
                    ip_address := req.ipAddress }])) := by
      rw [refresh_rotate_branch h1 h2 hfind]
      show updateFirst _ _ st ++ _ = _
      rw [hupd, List.append_assoc]
      rfl
    have hne : ∀ r, r ∈ l₁ ∨ r ∈ l₂ → r.token_hash ≠ row.token_hash := by
      rw [hst] at hnodup
      exact nodup_split_hash_ne hnodup
    have hfind₂ : ((refreshTokenHandler env req st now nsid).store).find?
        (matchesActiveSession c.sessionId c.id (hashToken tok) now₂) = none := by
      rw [hstore1]
      apply List.find?_eq_none.mpr
      intro r hr habs
      have habs' : matchesActiveSession c.sessionId c.id (hashToken tok) now₂ r = true := by
        simpa using habs
      obtain ⟨hs, hu, hh, hrev, hex⟩ := matchesActive_iff.mp habs'
      rcases List.mem_append.mp hr with hl1 | hr'
      · exact hne r (Or.inl hl1) (by rw [hh, hrowhash])
      · rcases List.mem_cons.mp hr' with rfl | hr''
        · simp at hrev
        · rcases List.mem_append.mp hr'' with hl2 | hnew
          · exact hne r (Or.inr hl2) (by rw [hh, hrowhash])
          · have hrnew := List.mem_singleton.mp hnew
            subst hrnew
            have heq : createRefreshToken env c.id nsid now = tok := hashToken_inj hh
            apply hfresh
            have hsid := congrArg Token.payload_session_id heq
            simp only [createRefreshToken] at hsid
            rw [hc]
            exact hsid
    rw [refresh_reuse_branch h1 hver₂ hfind₂]
    refine ⟨rfl, rfl, ?_⟩
    intro r hr
    exact revokeAllActive_no_active r hr

/-- Concrete instantiation of claimC1_reuse_revokes_family: a verified but
unmatched token revokes the family with 403, and replaying a just-rotated token
fails 403 leaving no ACTIVE row for the user. -/
theorem claimC1_reuse_revokes_family_witness :
    ((refreshTokenHandler ⟨2, 1, 15, 700, 700⟩ ⟨some ⟨10, some 5, 1, 700⟩, none, none, none⟩
        [⟨5, 10, hashToken ⟨10, some 5, 1, 700⟩, none, some 3, 700, none, none⟩] 50 6).status =
      403 ∧
     (refreshTokenHandler ⟨2, 1, 15, 700, 700⟩ ⟨some ⟨10, some 5, 1, 700⟩, none, none, none⟩
        [⟨5, 10, hashToken ⟨10, some 5, 1, 700⟩, none, some 3, 700, none, none⟩] 50 6).cookie =
      CookieEffect.cleared ∧
     (∀ r ∈ (refreshTokenHandler ⟨2, 1, 15, 700, 700⟩
          ⟨some ⟨10, some 5, 1, 700⟩, none, none, none⟩
          [⟨5, 10, hashToken ⟨10, some 5, 1, 700⟩, none, some 3, 700, none, none⟩] 50 6).store,
        r.usuario_id = 10 → r.revoked_at ≠ none)) ∧
    ((refreshTokenHandler ⟨2, 1, 15, 700, 700⟩ ⟨some ⟨10, some 5, 1, 700⟩, none, none, none⟩
        (refreshTokenHandler ⟨2, 1, 15, 700, 700⟩ ⟨some ⟨10, some 5, 1, 700⟩, none, none, none⟩
          [⟨5, 10, hashToken ⟨10, some 5, 1, 700⟩, none, none, 700, none, none⟩] 50 6).store
        60 7).status = 403 ∧
     (∀ r ∈ (refreshTokenHandler ⟨2, 1, 15, 700, 700⟩
          ⟨some ⟨10, some 5, 1, 700⟩, none, none, none⟩
          (refreshTokenHandler ⟨2, 1, 15, 700, 700⟩ ⟨some ⟨10, some 5, 1, 700⟩, none, none, none⟩
            [⟨5, 10, hashToken ⟨10, some 5, 1, 700⟩, none, none, 700, none, none⟩] 50 6).store
          60 7).store,
        r.usuario_id = 10 → r.revoked_at ≠ none)) := by
  have ha := claimC1_reuse_revokes_family.1 ⟨2, 1, 15, 700, 700⟩
    ⟨some ⟨10, some 5, 1, 700⟩, none, none, none⟩
    [⟨5, 10, hashToken ⟨10, some 5, 1, 700⟩, none, some 3, 700, none, none⟩] 50 6
    ⟨10, some 5, 1, 700⟩ ⟨10, some 5⟩ rfl (by decide) (by decide)
  have hb := claimC1_reuse_revokes_family.2 ⟨2, 1, 15, 700, 700⟩
    ⟨some ⟨10, some 5, 1, 700⟩, none, none, none⟩
    [⟨5, 10, hashToken ⟨10, some 5, 1, 700⟩, none, none, 700, none, none⟩] 50 60 6 7
    ⟨10, some 5, 1, 700⟩ ⟨10, some 5⟩
    ⟨5, 10, hashToken ⟨10, some 5, 1, 700⟩, none, none, 700, none, none⟩
    rfl (by decide) (by decide) (by decide) (by decide) (by decide)
  exact ⟨⟨ha.1, ha.2.1, ha.2.2.1⟩, hb.1, hb.2.2⟩

end SushiBurrito
